import Mathlib

/-!
Verification development for the `aa-isksync` tax-cycle and notification engine.

Shallow embedding of `src/isksync/models.py`, `src/isksync/tasks.py`,
`src/isksync/discord_notifications.py`, `src/isksync/views.py` and
`src/isksync/admin.py`.

Conventions of the embedding:
* `Decimal(20,2)` monetary amounts are represented by `Rat` (exact).
* Python `datetime.date` values are represented by a `Date` structure of
  year/month/day integers.  Chronological comparison of valid dates is done
  through an injective monotone integer key (`Date.key`); day differences
  (`(a - b).days`) are computed with a proleptic-Gregorian day number
  (`Date.rataDie`).
* Database rows are lists of structures; `save()` returns the updated row.
* The status and notification-type string constants come from
  `src/isksync/constants.py`, which is not part of the provided sources;
  they are modelled from the spec (see `CycleStatus`).
-/

namespace IskSync

/-! ## Dates -/

/-- A calendar date as stored by Django's `DateField` (`datetime.date`). -/
structure Date where
  year : Int
  month : Int
  day : Int
deriving DecidableEq

/-- A structurally valid `datetime.date` (Python never constructs a date
outside these component bounds). -/
def Date.Valid (d : Date) : Prop :=
  1 ≤ d.month ∧ d.month ≤ 12 ∧ 1 ≤ d.day ∧ d.day ≤ 31

instance (d : Date) : Decidable d.Valid := by
  unfold Date.Valid; infer_instance

/-- Injective, order-preserving key for valid dates: comparing keys agrees
with Python's chronological comparison of `datetime.date` values. -/
def Date.key (d : Date) : Int :=
  d.year * 372 + d.month * 31 + d.day

/-- Python `a < b` on dates. -/
def Date.ltb (a b : Date) : Bool := a.key < b.key

/-- Python `a <= b` on dates. -/
def Date.leb (a b : Date) : Bool := a.key ≤ b.key

/-- Cumulative day counts before each month in a non-leap year
(index 1..12). -/
def daysBeforeMonth (m : Int) : Int :=
  if m ≤ 1 then 0
  else if m = 2 then 31
  else if m = 3 then 59
  else if m = 4 then 90
  else if m = 5 then 120
  else if m = 6 then 151
  else if m = 7 then 181
  else if m = 8 then 212
  else if m = 9 then 243
  else if m = 10 then 273
  else if m = 11 then 304
  else 334

/-- Gregorian leap-year rule (Python `calendar.isleap`). -/
def isLeapYear (y : Int) : Bool :=
  (y % 4 == 0 && y % 100 != 0) || y % 400 == 0

/-- `calendar.monthrange(y, m)[1]`: number of days in the month. -/
def daysInMonth (y m : Int) : Int :=
  if m = 2 then (if isLeapYear y then 29 else 28)
  else if m = 4 ∨ m = 6 ∨ m = 9 ∨ m = 11 then 30
  else 31

/-- Proleptic-Gregorian day number (rata die); Python's
`(a - b).days = a.rataDie - b.rataDie`. -/
def Date.rataDie (d : Date) : Int :=
  365 * (d.year - 1) + (d.year - 1).fdiv 4 - (d.year - 1).fdiv 100
    + (d.year - 1).fdiv 400 + daysBeforeMonth d.month
    + (if 2 < d.month ∧ isLeapYear d.year then 1 else 0) + d.day

/-- `(a - b).days` for Python dates. -/
def dateDiffDays (a b : Date) : Int := a.rataDie - b.rataDie

/-! ## Status constants

Modelled from the spec: `src/isksync/constants.py` is not included in the
sources; the spec (§3) fixes the cycle status vocabulary as
`{PENDING, PAID, OVERDUE, WRITTEN_OFF}`, matching the string literals used
throughout `views.py`, `admin.py` and `discord_notifications.py`. -/

inductive CycleStatus where
  | PENDING
  | PAID
  | OVERDUE
  | WRITTEN_OFF
deriving DecidableEq

inductive ObligationStatus where
  | PENDING
  | COMPLETED
  | FAILED
deriving DecidableEq

/-! ## Data model (`src/isksync/models.py`) -/

/-- `SystemOwnership` (models.py:80), restricted to the fields the cycle
engine reads. -/
structure SystemOwnership where
  id : Nat
  tax_active : Bool
  default_tax_amount_isk : Rat
deriving DecidableEq

/-- `SystemOwnership.get_current_tax_amount` (models.py:184):
`return self.default_tax_amount_isk or Decimal("0.00")`. -/
def SystemOwnership.get_current_tax_amount (s : SystemOwnership) : Rat :=
  if s.default_tax_amount_isk = 0 then 0 else s.default_tax_amount_isk

/-- `TaxCycle` (models.py:192).  `due_date`, `period_start`, `period_end`
and `target_amount` are non-null columns, hence total fields;
`paid_date`, `paid_amount` and `user_marked_paid_at` are nullable. -/
structure TaxCycle where
  id : Nat
  system_ownership : Nat
  period_start : Date
  period_end : Date
  due_date : Date
  status : CycleStatus
  paid_date : Option Date
  paid_amount : Option Rat
  target_amount : Rat
  notes : String
  user_marked_paid : Bool
  user_marked_paid_at : Option Int
deriving DecidableEq

/-- `TaxCycle.expected_amount` (models.py:275):
`return self.target_amount or Decimal("0.00")`. -/
def TaxCycle.expected_amount (c : TaxCycle) : Rat :=
  if c.target_amount = 0 then 0 else c.target_amount

/-- `TaxCycle.remaining_amount` (models.py:280). -/
def TaxCycle.remaining_amount (c : TaxCycle) : Rat :=
  max (c.expected_amount - c.paid_amount.getD 0) 0

/-- `TaxCycle.is_fully_paid` (models.py:287). -/
def TaxCycle.is_fully_paid (c : TaxCycle) : Bool :=
  c.status = CycleStatus.PAID

/-- `TaxCycle.clean` (models.py:241-264), returning the first
`ValidationError` raised, if any.  Dates are always truthy in Python, so
the `if self.period_start and self.period_end` guards are satisfied for
the total fields and reduce to presence tests for nullable ones. -/
def TaxCycle.clean (c : TaxCycle) : Except String Unit :=
  if c.period_start.key ≥ c.period_end.key then
    .error "Period start must be before period end"
  else if c.due_date.key < c.period_end.key then
    .error "Due date should be after or equal to period end"
  else if c.paid_date.isSome ∧
      c.status ≠ CycleStatus.PAID ∧ c.status ≠ CycleStatus.WRITTEN_OFF then
    .error "Paid date can only be set for paid or written off cycles"
  else if (match c.paid_amount with
           | some a => decide (a < 0)
           | none => false) then
    .error "Paid amount cannot be negative"
  else if c.status = CycleStatus.PAID ∧
      (match c.paid_amount with
       | some a => decide (c.expected_amount ≠ 0 ∧ a < c.expected_amount)
       | none => false) = true then
    .error "Full payment cannot be less than expected amount"
  else
    .ok ()

/-- `TaxCycle.save` (models.py:266-271): auto-sets `paid_date` to today
when the status is `PAID` and no paid date is present.  `save` does NOT
call `full_clean`, so `clean` is not run on this path. -/
def TaxCycle.save (c : TaxCycle) (today : Date) : TaxCycle :=
  if c.status = CycleStatus.PAID ∧ c.paid_date = none then
    { c with paid_date := some today }
  else c

/-- `TaxCycle.set_status_paid` (models.py:302-311). -/
def TaxCycle.set_status_paid (c : TaxCycle) (amount : Option Rat)
    (paid_date : Option Date) (today : Date) : TaxCycle :=
  TaxCycle.save
    { c with
      status := CycleStatus.PAID
      paid_date := some (paid_date.getD today)
      paid_amount := some (amount.getD c.target_amount) }
    today

/-- `TaxCycle.set_status_written_off` (models.py:314-319). -/
def TaxCycle.set_status_written_off (c : TaxCycle) (notes : Option String)
    (today : Date) : TaxCycle :=
  TaxCycle.save
    { c with
      status := CycleStatus.WRITTEN_OFF
      notes := match notes with
               | some n => if n = "" then c.notes else n
               | none => c.notes }
    today

/-- `TaxCycle.set_status_pending` (models.py:321-330). -/
def TaxCycle.set_status_pending (c : TaxCycle) (clear_user_flags : Bool)
    (today : Date) : TaxCycle :=
  TaxCycle.save
    (if clear_user_flags then
      { c with
        status := CycleStatus.PENDING
        paid_amount := none
        paid_date := none
        user_marked_paid := false
        user_marked_paid_at := none }
    else
      { c with
        status := CycleStatus.PENDING
        paid_amount := none
        paid_date := none })
    today

/-- `TaxCycle.days_until_due` (models.py:425-431); `due_date` is a
non-null column, so the `None` branch of the source is unreachable and the
result is total. -/
def TaxCycle.days_until_due (c : TaxCycle) (today : Date) : Int :=
  dateDiffDays c.due_date today

/-- `TaxCycle.payment_timing_status` (models.py:435-449). -/
def TaxCycle.payment_timing_status (c : TaxCycle) (today : Date) : String :=
  let days_until := c.days_until_due today
  if days_until < 0 then "overdue"
  else if days_until = 0 then "due_today"
  else if days_until ≤ 3 then "due_soon"
  else if days_until ≤ 7 then "payment_time"
  else "too_early"

/-- `TaxCycle.can_user_mark_paid` (models.py:375-383). -/
def TaxCycle.can_user_mark_paid (c : TaxCycle) (today : Date) : Bool :=
  if c.status ≠ CycleStatus.PENDING then false
  else
    let timing := c.payment_timing_status today
    timing = "payment_time" ∨ timing = "due_soon" ∨ timing = "due_today"
      ∨ timing = "overdue"

/-- `TaxCycle.mark_as_paid_by_user` (models.py:333-342); `now` is the
`timezone.now()` timestamp.  Returns the success flag and the saved row. -/
def TaxCycle.mark_as_paid_by_user (c : TaxCycle) (today : Date) (now : Int) :
    Bool × TaxCycle :=
  if c.can_user_mark_paid today then
    (true, { c with user_marked_paid := true, user_marked_paid_at := some now })
  else
    (false, c)

/-- `TaxCycle.unmark_as_paid_by_user` (models.py:344-351). -/
def TaxCycle.unmark_as_paid_by_user (c : TaxCycle) : Bool × TaxCycle :=
  if c.user_marked_paid then
    (true, { c with user_marked_paid := false, user_marked_paid_at := none })
  else
    (false, c)

/-- `TaxCycle.toggle_user_mark_paid` (models.py:353-358). -/
def TaxCycle.toggle_user_mark_paid (c : TaxCycle) (today : Date) (now : Int) :
    Bool × TaxCycle :=
  if c.user_marked_paid then c.unmark_as_paid_by_user
  else c.mark_as_paid_by_user today now

/-- `TaxCycle.can_be_set_to_paid` (models.py:362-364):
`return self.status == TAXCYCLE_STATUS_PENDING`. -/
def TaxCycle.can_be_set_to_paid (c : TaxCycle) : Bool :=
  c.status = CycleStatus.PENDING

/-- `TaxCycle.can_be_set_to_pending` (models.py:366-368). -/
def TaxCycle.can_be_set_to_pending (c : TaxCycle) : Bool :=
  c.status = CycleStatus.PAID ∨ c.status = CycleStatus.WRITTEN_OFF

/-- `TaxCycle.can_be_written_off` (models.py:371-373). -/
def TaxCycle.can_be_written_off (c : TaxCycle) : Bool :=
  c.status ≠ CycleStatus.WRITTEN_OFF

/-- `toggle_user_marked_paid` view (views.py:587-631): flips the
self-report flag unconditionally (no `can_user_mark_paid` gate), stamping
or clearing the timestamp, then saves. -/
def toggle_user_marked_paid_view (c : TaxCycle) (now : Int) : TaxCycle :=
  let flipped := ¬ c.user_marked_paid
  if flipped then
    { c with user_marked_paid := true, user_marked_paid_at := some now }
  else
    { c with user_marked_paid := false, user_marked_paid_at := none }

/-! ## Notification configuration and log (`models.py`) -/

/-- `DiscordNotificationConfig` (models.py:646), restricted to the fields
read by the notification sweep.  `advance_notice_days` is a
`PositiveIntegerField`, hence a `Nat`. -/
structure DiscordNotificationConfig where
  webhook_base_url : String
  advance_notice_days : Nat
  send_advance_notice : Bool
  send_due_notice : Bool
  send_overdue_notice : Bool
  is_active : Bool
deriving DecidableEq

/-- The three notification buckets of the classifier. -/
inductive Bucket where
  | ADVANCE
  | DUE
  | OVERDUE
deriving DecidableEq

def Bucket.name : Bucket → String
  | .ADVANCE => "ADVANCE"
  | .DUE => "DUE"
  | .OVERDUE => "OVERDUE"

/-- `DiscordNotificationLog` (models.py:752). -/
structure DiscordNotificationLog where
  tax_cycle : Nat
  notification_type : String
  sent_date : Date
  webhook_url : String
  success : Bool
  response_status : Option Int
  error_message : String
deriving DecidableEq

/-- `log_notification` (discord_notifications.py:270-288): builds the log
row appended for one cycle. -/
def log_notification (tax_cycle : Nat) (notification_type : String)
    (webhook_url : String) (today : Date) (success : Bool)
    (status_code : Option Int) (error_message : String) :
    DiscordNotificationLog :=
  { tax_cycle := tax_cycle
    notification_type := notification_type
    sent_date := today
    webhook_url := webhook_url
    success := success
    response_status := status_code
    error_message := error_message }

/-! ## Notification classifier and sweep
(`discord_notifications.py:480-607`) -/

/-- The opening queryset filter of the sweep
(discord_notifications.py:504-509): `status__in=["PENDING", "OVERDUE"]`. -/
def openStatusFilter (cycles : List TaxCycle) : List TaxCycle :=
  cycles.filter fun c =>
    c.status == CycleStatus.PENDING || c.status == CycleStatus.OVERDUE

/-- Per-cycle bucket classification (discord_notifications.py:522-535):
the `if/elif/elif` chain over `days_until_due`. -/
def classifyNotificationType (c : TaxCycle) (today : Date)
    (config : DiscordNotificationConfig) : Option Bucket :=
  let days_until_due := dateDiffDays c.due_date today
  if days_until_due = (config.advance_notice_days : Int) ∧
      config.send_advance_notice then
    some Bucket.ADVANCE
  else if days_until_due = 0 ∧ config.send_due_notice then
    some Bucket.DUE
  else if days_until_due < 0 ∧ config.send_overdue_notice ∧
      (c.status = CycleStatus.PENDING ∨ c.status = CycleStatus.OVERDUE) then
    some Bucket.OVERDUE
  else
    none

/-- The per-day suppression check (discord_notifications.py:537-546): a
successful `BATCHED_<bucket>` log entry for `(cycle, today)` exists. -/
def isSuppressedToday (log : List DiscordNotificationLog) (c : TaxCycle)
    (b : Bucket) (today : Date) : Bool :=
  log.any fun e =>
    e.tax_cycle == c.id && e.notification_type == "BATCHED_" ++ b.name
      && e.sent_date == today && e.success

/-- The cycles accumulated into bucket `b` by the sweep loop
(discord_notifications.py:513-555): open cycles classified into `b` and
not suppressed for `b` today, in queryset order. -/
def selectedForBucket (cycles : List TaxCycle)
    (log : List DiscordNotificationLog) (today : Date)
    (config : DiscordNotificationConfig) (b : Bucket) : List TaxCycle :=
  (openStatusFilter cycles).filter fun c =>
    classifyNotificationType c today config == some b
      && ! isSuppressedToday log c b today

/-- The flattened batch `all_cycles` (discord_notifications.py:572-575):
bucket lists concatenated in dict insertion order
`ADVANCE, DUE, OVERDUE`. -/
def batchedCycles (cycles : List TaxCycle)
    (log : List DiscordNotificationLog) (today : Date)
    (config : DiscordNotificationConfig) : List TaxCycle :=
  selectedForBucket cycles log today config Bucket.ADVANCE
    ++ selectedForBucket cycles log today config Bucket.DUE
    ++ selectedForBucket cycles log today config Bucket.OVERDUE

/-- The notification type recomputed for each logged cycle
(discord_notifications.py:578-585); note it does not consult the
enable flags. -/
def logTypeFor (c : TaxCycle) (today : Date)
    (config : DiscordNotificationConfig) : String :=
  let days_until_due := dateDiffDays c.due_date today
  if days_until_due = (config.advance_notice_days : Int) then "ADVANCE"
  else if days_until_due = 0 then "DUE"
  else "OVERDUE"

/-- The run summary of `process_all_tax_cycle_notifications`. -/
structure SweepSummary where
  cycles_checked : Nat
  notifications_sent : Nat
  notifications_failed : Nat
  batched_messages_sent : Nat
  config_found : Bool
deriving DecidableEq

/-- Result of one sweep: the summary, the number of webhook POST calls
performed (`send_batched_discord_notification` invocations), and the log
rows appended. -/
structure SweepResult where
  summary : SweepSummary
  posts : Nat
  new_logs : List DiscordNotificationLog
deriving DecidableEq

/-- `process_all_tax_cycle_notifications`
(discord_notifications.py:480-607).  The external delivery collaborator
(`requests.post` inside `send_batched_discord_notification`) is an input
`delivery = (success, status_code, error_message)`; the active config is
the first active entry of the config table. -/
def process_all_tax_cycle_notifications (cycles : List TaxCycle)
    (log : List DiscordNotificationLog) (today : Date)
    (configs : List DiscordNotificationConfig)
    (delivery : Bool × Int × String) : SweepResult :=
  match configs.find? (fun cfg => cfg.is_active) with
  | none =>
      { summary := { cycles_checked := 0, notifications_sent := 0
                     notifications_failed := 0, batched_messages_sent := 0
                     config_found := false }
        posts := 0
        new_logs := [] }
  | some config =>
      let cycles_checked := (openStatusFilter cycles).length
      let all_cycles := batchedCycles cycles log today config
      if all_cycles.isEmpty then
        { summary := { cycles_checked := cycles_checked
                       notifications_sent := 0, notifications_failed := 0
                       batched_messages_sent := 0, config_found := true }
          posts := 0
          new_logs := [] }
      else
        let success := delivery.1
        let status_code := delivery.2.1
        let error_message := delivery.2.2
        let new_logs := all_cycles.map fun c =>
          log_notification c.id ("BATCHED_" ++ logTypeFor c today config)
            config.webhook_base_url today success (some status_code)
            error_message
        { summary := { cycles_checked := cycles_checked
                       notifications_sent :=
                         if success then all_cycles.length else 0
                       notifications_failed :=
                         if success then 0 else all_cycles.length
                       batched_messages_sent := if success then 1 else 0
                       config_found := true }
          posts := 1
          new_logs := new_logs }

/-! ## Attribute lookup on `TaxCycle`
(for the frontend views and admin bulk actions) -/

/-- Every attribute name defined on `class TaxCycle` (models.py:192-478):
columns, class attributes, methods and properties, plus the standard
Django model machinery (`save`, `delete`, `full_clean`,
`get_FOO_display`, reverse relations, manager).  There is no attribute
named `mark_paid`, `mark_overdue` or `write_off`. -/
def taxCycleAttributeNames : List String :=
  [ -- columns (incl. BaseModel) and pk aliases
    "id", "pk", "created_at", "updated_at", "system_ownership",
    "system_ownership_id", "period_start", "period_end", "due_date",
    "status", "paid_date", "paid_amount", "target_amount", "notes",
    "user_marked_paid", "user_marked_paid_at",
    -- class attributes
    "STATUS_CHOICES", "objects",
    -- methods defined in the class body
    "clean", "save", "set_status_paid", "set_status_written_off",
    "set_status_pending", "mark_as_paid_by_user", "unmark_as_paid_by_user",
    "toggle_user_mark_paid", "can_be_set_to_paid", "can_be_set_to_pending",
    "can_be_written_off", "can_user_mark_paid",
    -- properties
    "expected_amount", "remaining_amount", "is_fully_paid", "system",
    "affected_users", "obligation_count", "fulfilled_obligation_count",
    "has_obligations", "all_obligations_fulfilled", "is_fully_complete",
    "completion_status", "days_until_due", "payment_timing_status",
    "payment_timing_message",
    -- Django-generated model API and reverse relations
    "get_status_display", "full_clean", "clean_fields", "validate_unique",
    "refresh_from_db", "delete", "obligations", "discord_notifications" ]

/-- Python attribute lookup on a `TaxCycle` instance. -/
def taxCycleHasAttr (name : String) : Bool :=
  taxCycleAttributeNames.contains name

/-- Invoke a status-management method on a cycle by attribute name, as the
views and admin actions do.  When the name is not an attribute of
`TaxCycle`, Python raises `AttributeError` at the lookup, before any call,
so the row is returned unchanged together with the error.  When the name
resolves, the corresponding method from the class body runs (only the
no-argument status mutators are dispatched here; the operations under
study never reach this branch with any other name). -/
def invokeByName (c : TaxCycle) (name : String) (today : Date) :
    TaxCycle × Option String :=
  if taxCycleHasAttr name then
    if name = "set_status_paid" then (c.set_status_paid none none today, none)
    else if name = "set_status_written_off" then
      (c.set_status_written_off none today, none)
    else if name = "set_status_pending" then
      (c.set_status_pending true today, none)
    else (c, none)
  else
    (c, some ("AttributeError: " ++ name))

/-- `mark_cycle_paid` view (views.py:392-411): calls
`cycle.mark_paid()`. -/
def mark_cycle_paid_view (c : TaxCycle) (today : Date) :
    TaxCycle × Option String :=
  invokeByName c "mark_paid" today

/-- `exempt_cycle` view (views.py:568-584): calls
`cycle.write_off(notes=...)`. -/
def exempt_cycle_view (c : TaxCycle) (today : Date) :
    TaxCycle × Option String :=
  invokeByName c "write_off" today

/-- One cycle of the admin bulk action `mark_as_paid`
(admin.py:544-573): guarded by `status in ["PENDING", "OVERDUE"]`, then
calls `cycle.mark_paid()`. -/
def admin_mark_as_paid_cycle (c : TaxCycle) (today : Date) :
    TaxCycle × Option String :=
  if c.status = CycleStatus.PENDING ∨ c.status = CycleStatus.OVERDUE then
    invokeByName c "mark_paid" today
  else
    (c, none)

/-- One cycle of the admin bulk action `mark_as_overdue`
(admin.py:577-599): guarded by `status == "PENDING"`, then calls
`cycle.mark_overdue()`. -/
def admin_mark_as_overdue_cycle (c : TaxCycle) (today : Date) :
    TaxCycle × Option String :=
  if c.status = CycleStatus.PENDING then
    invokeByName c "mark_overdue" today
  else
    (c, none)

/-- One cycle of the admin bulk action `write_off_selected`
(admin.py:601-623): guarded by `status != "WRITTEN_OFF"`, then calls
`cycle.write_off()`. -/
def admin_write_off_cycle (c : TaxCycle) (today : Date) :
    TaxCycle × Option String :=
  if c.status ≠ CycleStatus.WRITTEN_OFF then
    invokeByName c "write_off" today
  else
    (c, none)

/-! ## Obligation data (`models.py`) -/

/-- `SystemObligationType` (models.py:501), the resource↔obligation-type
assignment. -/
structure SystemObligationType where
  system_ownership : Nat
  obligation_type : Nat
  is_active : Bool
deriving DecidableEq

/-- `TaxCycleObligation` (models.py:524), restricted to the fields the
generator touches. -/
structure TaxCycleObligation where
  tax_cycle : Nat
  obligation_type : Nat
  status : ObligationStatus
deriving DecidableEq

/-! ## Cycle generator (`src/isksync/tasks.py`) -/

/-- `_first_of_month` (tasks.py:36). -/
def Date.firstOfMonth (d : Date) : Date := ⟨d.year, d.month, 1⟩

/-- Linear month number of a date, used to drive the generator's
month-by-month `while` loop (`_next_month`, tasks.py:40, increments this
by one on first-of-month dates). -/
def monthIndex (d : Date) : Int := d.year * 12 + (d.month - 1)

/-- The first-of-month date with the given linear month number. -/
def firstDayOfMonthIndex (idx : Int) : Date :=
  let m0 := idx % 12
  ⟨(idx - m0) / 12, m0 + 1, 1⟩

/-- The month numbers traversed by `while iter_month <= end_month`
(tasks.py:85), i.e. `a, a+1, ..., b` (empty when `b < a`). -/
def monthRangeList (a b : Int) : List Int :=
  (List.range (b + 1 - a).toNat).map fun (k : Nat) => a + (k : Int)

/-- `_ensure_cycle_obligations` (tasks.py:15-33): `get_or_create` one
obligation row per active assignment of the cycle's resource.  Returns the
grown obligation table and the number created. -/
def ensure_cycle_obligations (assignments : List SystemObligationType)
    (cycle_id : Nat) (sid : Nat) (obls : List TaxCycleObligation) :
    List TaxCycleObligation × Nat :=
  let active := assignments.filter fun a =>
    a.system_ownership == sid && a.is_active
  active.foldl
    (fun acc a =>
      if acc.1.any (fun o =>
          o.tax_cycle == cycle_id && o.obligation_type == a.obligation_type)
      then acc
      else (acc.1 ++ [{ tax_cycle := cycle_id
                        obligation_type := a.obligation_type
                        status := ObligationStatus.PENDING }],
            acc.2 + 1))
    (obls, 0)

/-- Mutable state of one generation run: the cycle and obligation tables
plus the run counters (tasks.py:59-62) and the next auto-assigned primary
key. -/
structure GenState where
  cycles : List TaxCycle
  obligations : List TaxCycleObligation
  created : Nat
  skipped : Nat
  errors : Nat
  obligations_created : Nat
  next_cycle_id : Nat
deriving DecidableEq

/-- `TaxCycle.objects.filter(system_ownership=..., period_start=...)
.first()` (tasks.py:94-96). -/
def findCycle (cycles : List TaxCycle) (sid : Nat) (ps : Date) :
    Option TaxCycle :=
  cycles.find? fun c => c.system_ownership == sid && c.period_start == ps

/-- One iteration of the generator's month loop (tasks.py:85-129) for
system `s` and the month with linear number `idx`. -/
def processMonth (assignments : List SystemObligationType)
    (s : SystemOwnership) (st : GenState) (idx : Int) : GenState :=
  let period_start := firstDayOfMonthIndex idx
  let period_end : Date :=
    ⟨period_start.year, period_start.month,
      daysInMonth period_start.year period_start.month⟩
  let due_date := period_end
  match findCycle st.cycles s.id period_start with
  | some existing =>
      let r := ensure_cycle_obligations assignments existing.id s.id
        st.obligations
      { st with
        skipped := st.skipped + 1
        obligations := r.1
        obligations_created := st.obligations_created + r.2 }
  | none =>
      let amount := s.get_current_tax_amount
      if amount = 0 ∨ amount ≤ 0 then
        { st with skipped := st.skipped + 1 }
      else
        let cycle : TaxCycle :=
          { id := st.next_cycle_id
            system_ownership := s.id
            period_start := period_start
            period_end := period_end
            due_date := due_date
            status := CycleStatus.PENDING
            paid_date := none
            paid_amount := none
            target_amount := amount
            notes := "Auto-generated cycle"
            user_marked_paid := false
            user_marked_paid_at := none }
        let r := ensure_cycle_obligations assignments cycle.id s.id
          st.obligations
        { st with
          cycles := st.cycles ++ [cycle]
          created := st.created + 1
          obligations := r.1
          obligations_created := st.obligations_created + r.2
          next_cycle_id := st.next_cycle_id + 1 }

/-- One comparison step of the chronological minimum below. -/
def earliestStep (acc : Option Date) (c : TaxCycle) : Option Date :=
  match acc with
  | none => some c.period_start
  | some e =>
      if c.period_start.key < e.key then some c.period_start else some e

/-- `order_by("period_start").first()` (tasks.py:71-76): the earliest
`period_start` among a system's cycles. -/
def earliestPeriodStart (cycles : List TaxCycle) : Option Date :=
  cycles.foldl earliestStep none

/-- The month numbers one system's loop traverses (tasks.py:79-85): from
the month of the earliest existing cycle — or the current month when the
system has no cycles — up to the current month inclusive. -/
def systemMonthRange (cycles : List TaxCycle) (s : SystemOwnership)
    (today : Date) : List Int :=
  let sCycles := cycles.filter fun c => c.system_ownership == s.id
  let start_idx :=
    match earliestPeriodStart sCycles with
    | some e => monthIndex e.firstOfMonth
    | none => monthIndex today.firstOfMonth
  monthRangeList start_idx (monthIndex today.firstOfMonth)

/-- Processing of one system ownership (tasks.py:67-129): compute the
month range from the earliest existing cycle (or the current month) to
the current month, then run the month loop. -/
def processSystem (assignments : List SystemObligationType) (today : Date)
    (st : GenState) (s : SystemOwnership) : GenState :=
  (systemMonthRange st.cycles s today).foldl (processMonth assignments s) st

/-- `generate_monthly_tax_cycles` (tasks.py:46-150): iterate the
tax-active systems over the initial database state.  The returned
`GenState` carries the run-summary counters. -/
def generate_monthly_tax_cycles (systems : List SystemOwnership)
    (cycles : List TaxCycle) (obligations : List TaxCycleObligation)
    (assignments : List SystemObligationType) (today : Date)
    (next_id : Nat) : GenState :=
  let active_systems := systems.filter fun s => s.tax_active
  active_systems.foldl (processSystem assignments today)
    { cycles := cycles
      obligations := obligations
      created := 0
      skipped := 0
      errors := 0
      obligations_created := 0
      next_cycle_id := next_id }

/-! ## Concrete sample rows used by counterexamples and witnesses -/

def sampleToday : Date := ⟨2026, 10, 12⟩

/-- A pending October-2026 cycle with a target of 1,000,000 ISK. -/
def pendingCycle : TaxCycle :=
  { id := 1
    system_ownership := 1
    period_start := ⟨2026, 10, 1⟩
    period_end := ⟨2026, 10, 31⟩
    due_date := ⟨2026, 10, 31⟩
    status := CycleStatus.PENDING
    paid_date := none
    paid_amount := none
    target_amount := 1000000
    notes := ""
    user_marked_paid := false
    user_marked_paid_at := none }

/-- A cycle in status `OVERDUE`. -/
def overdueCycle : TaxCycle :=
  { pendingCycle with
    id := 2
    period_start := ⟨2026, 9, 1⟩
    period_end := ⟨2026, 9, 30⟩
    due_date := ⟨2026, 9, 30⟩
    status := CycleStatus.OVERDUE }

/-- A pending cycle due 10 days after `sampleToday` (self-report window
not yet open: `payment_timing_status = "too_early"`). -/
def earlyPendingCycle : TaxCycle :=
  { pendingCycle with
    id := 3
    due_date := ⟨2026, 10, 22⟩ }

/-- The spec-side bucket conditions (spec §4.5), stated as independent
predicates for comparison with the sequential classifier of the code. -/
def specBucketCondition (c : TaxCycle) (today : Date)
    (config : DiscordNotificationConfig) : Bucket → Prop
  | Bucket.ADVANCE =>
      dateDiffDays c.due_date today = (config.advance_notice_days : Int) ∧
        config.send_advance_notice = true
  | Bucket.DUE =>
      dateDiffDays c.due_date today = 0 ∧ config.send_due_notice = true
  | Bucket.OVERDUE =>
      dateDiffDays c.due_date today < 0 ∧ config.send_overdue_notice = true

/-- A cycle due exactly on `sampleToday`, used by the classifier
witnesses. -/
def dueTodayCycle : TaxCycle :=
  { pendingCycle with
    id := 4
    due_date := sampleToday }

/-- The active notification configuration used by witnesses:
`advance_notice_days = 7`, every notice type enabled. -/
def sampleConfig : DiscordNotificationConfig :=
  { webhook_base_url := "https://discord.example/webhook"
    advance_notice_days := 7
    send_advance_notice := true
    send_due_notice := true
    send_overdue_notice := true
    is_active := true }

/-- A successful `BATCHED_OVERDUE` log entry for cycle id 2 on
`sampleToday`. -/
def sampleLogEntry : DiscordNotificationLog :=
  { tax_cycle := 2
    notification_type := "BATCHED_OVERDUE"
    sent_date := sampleToday
    webhook_url := "https://discord.example/webhook"
    success := true
    response_status := some 204
    error_message := "" }

/-- A second overdue cycle (distinct id and system, same past due date)
for the batch witness. -/
def overdueCycleB : TaxCycle :=
  { overdueCycle with
    id := 5
    system_ownership := 2 }

/-- A tax-active system with no configured rate. -/
def zeroRateSystem : SystemOwnership :=
  { id := 3, tax_active := true, default_tax_amount_isk := 0 }

/-- An empty generator state. -/
def emptyGenState : GenState :=
  { cycles := [], obligations := [], created := 0, skipped := 0
    errors := 0, obligations_created := 0, next_cycle_id := 1 }

/-- The row `TaxCycle.objects.create(...)` builds in the create branch of
the generator (tasks.py:110-118), spelled out for the proofs; it is
definitionally the record constructed inside `processMonth`. -/
def newCycleFor (s : SystemOwnership) (st : GenState) (idx : Int) :
    TaxCycle :=
  { id := st.next_cycle_id
    system_ownership := s.id
    period_start := firstDayOfMonthIndex idx
    period_end :=
      ⟨(firstDayOfMonthIndex idx).year, (firstDayOfMonthIndex idx).month,
        daysInMonth (firstDayOfMonthIndex idx).year
          (firstDayOfMonthIndex idx).month⟩
    due_date :=
      ⟨(firstDayOfMonthIndex idx).year, (firstDayOfMonthIndex idx).month,
        daysInMonth (firstDayOfMonthIndex idx).year
          (firstDayOfMonthIndex idx).month⟩
    status := CycleStatus.PENDING
    paid_date := none
    paid_amount := none
    target_amount := s.get_current_tax_amount
    notes := "Auto-generated cycle"
    user_marked_paid := false
    user_marked_paid_at := none }

/-- A system is "covered" by a cycle table when every month its loop
would traverse either already has a cycle or is skipped for lack of a
positive rate — exactly the situation in which `processSystem` creates
nothing. -/
def SystemCovered (cycles : List TaxCycle) (s : SystemOwnership)
    (today : Date) : Prop :=
  ∀ i ∈ systemMonthRange cycles s today,
    s.get_current_tax_amount ≤ 0 ∨
      ∃ c ∈ cycles, c.system_ownership = s.id ∧
        c.period_start = firstDayOfMonthIndex i

/-- A tax-active system with a configured rate, for the idempotence
witness. -/
def ratedSystem : SystemOwnership :=
  { id := 1, tax_active := true, default_tax_amount_isk := 350000000 }

/-! ## State-machine lemmas -/

/-- The self-report gate in terms of `days_until_due`: the four admitted
timing statuses are exactly `days_until_due ≤ 7`. -/
theorem can_user_mark_paid_iff (c : TaxCycle) (today : Date) :
    c.can_user_mark_paid today = true ↔
      c.status = CycleStatus.PENDING ∧ c.days_until_due today ≤ 7 := by
  unfold TaxCycle.can_user_mark_paid TaxCycle.payment_timing_status
  by_cases hs : c.status = CycleStatus.PENDING
  · simp only [hs, ne_eq, not_true_eq_false, if_false]
    split_ifs with h1 h2 h3 h4 <;> simp <;> omega
  · simp [hs]

/-- C9: `payment_timing_status` is the stated pure function of
`days_until_due = due_date - today`: `overdue` iff negative, `due_today`
iff zero, `due_soon` iff 1..3, `payment_time` iff 4..7, `too_early` iff
more than 7. -/
theorem payment_timing_status_spec (c : TaxCycle) (today : Date) :
    (c.payment_timing_status today = "overdue" ↔
      c.days_until_due today < 0) ∧
    (c.payment_timing_status today = "due_today" ↔
      c.days_until_due today = 0) ∧
    (c.payment_timing_status today = "due_soon" ↔
      1 ≤ c.days_until_due today ∧ c.days_until_due today ≤ 3) ∧
    (c.payment_timing_status today = "payment_time" ↔
      4 ≤ c.days_until_due today ∧ c.days_until_due today ≤ 7) ∧
    (c.payment_timing_status today = "too_early" ↔
      7 < c.days_until_due today) := by
  unfold TaxCycle.payment_timing_status
  dsimp only
  split_ifs with h1 h2 h3 h4 <;>
    refine ⟨?_, ?_, ?_, ?_, ?_⟩ <;> simp <;> omega

/-- C8 counterexample: an `OVERDUE` cycle for which `can_be_set_to_paid`
returns `false`, although the claim demands `true` for status
`OVERDUE`. -/
theorem can_be_set_to_paid_overdue_is_false :
    overdueCycle.status = CycleStatus.OVERDUE ∧
    overdueCycle.can_be_set_to_paid = false := by decide

/-- C8 (amended): `can_be_set_to_paid` returns `true` exactly when the
cycle's status is `PENDING` (status `OVERDUE` yields `false`). -/
theorem can_be_set_to_paid_iff_pending (c : TaxCycle) :
    c.can_be_set_to_paid = true ↔ c.status = CycleStatus.PENDING := by
  simp [TaxCycle.can_be_set_to_paid]

/-- C1 counterexample: on a `PENDING` cycle with target 1,000,000, the
call `set_status_paid(amount=500000)` raises nothing and persists the
cycle with `status = PAID` and `paid_amount = 500000`, contradicting the
claim that it fails with `ValidationError` and leaves the status
unchanged. -/
theorem set_status_paid_below_target_no_error :
    pendingCycle.status = CycleStatus.PENDING ∧
    (500000 : Rat) < pendingCycle.target_amount ∧
    (pendingCycle.set_status_paid (some 500000) none sampleToday).status
      = CycleStatus.PAID ∧
    (pendingCycle.set_status_paid (some 500000) none sampleToday).paid_amount
      = some 500000 := by decide

/-- C1 (amended): for every open cycle and amount below target,
`set_status_paid(amount)` does not fail: it persists the cycle with
`status = PAID`, `paid_amount = amount` and `paid_date = today`.  The
full-payment floor lives only in `clean()` — the persisted row indeed
fails `clean` — but `set_status_paid`/`save` never invoke it. -/
theorem set_status_paid_below_target_persists (c : TaxCycle) (amt : Rat)
    (today : Date)
    (_hopen : c.status = CycleStatus.PENDING ∨ c.status = CycleStatus.OVERDUE)
    (hlt : amt < c.target_amount) :
    (c.set_status_paid (some amt) none today).status = CycleStatus.PAID ∧
    (c.set_status_paid (some amt) none today).paid_amount = some amt ∧
    (c.set_status_paid (some amt) none today).paid_date = some today ∧
    (c.set_status_paid (some amt) none today).clean ≠ Except.ok () := by
  have hr : c.set_status_paid (some amt) none today =
      { c with
        status := CycleStatus.PAID
        paid_date := some today
        paid_amount := some amt } := by
    simp [TaxCycle.set_status_paid, TaxCycle.save]
  refine ⟨by rw [hr], by rw [hr], by rw [hr], ?_⟩
  rw [hr]
  unfold TaxCycle.clean
  split_ifs with h1 h2 h3 h4 h5
  · simp
  · simp
  · simp
  · simp
  · simp
  · exfalso
    have h4p : ¬ amt < 0 := by simpa using h4
    by_cases ht : c.target_amount = 0
    · exact absurd (ht ▸ hlt) h4p
    · have h5p := h5
      simp [TaxCycle.expected_amount, ht] at h5p
      linarith

/-- C2 counterexample: a `PENDING` cycle due in 10 days (outside the
self-report window, `can_user_mark_paid = false`) whose flag the frontend
view `toggle_user_marked_paid` nevertheless sets to `true`. -/
theorem view_toggle_sets_flag_outside_window :
    earlyPendingCycle.status = CycleStatus.PENDING ∧
    (7 : Int) < earlyPendingCycle.days_until_due sampleToday ∧
    earlyPendingCycle.can_user_mark_paid sampleToday = false ∧
    earlyPendingCycle.user_marked_paid = false ∧
    (toggle_user_marked_paid_view earlyPendingCycle 5).user_marked_paid
      = true := by decide

/-- C2 (amended): the self-report gate holds at the model layer —
`mark_as_paid_by_user` succeeds only when `status == PENDING` and
`days_until_due ≤ 7`, outside that window it returns `false` and leaves
the row (flag and timestamp) unchanged, and `toggle_user_mark_paid` can
only turn the flag on inside the window — but the frontend view
`toggle_user_marked_paid` (views.py:587-631) flips the flag without this
gate. -/
theorem mark_as_paid_by_user_gated (c : TaxCycle) (today : Date)
    (now : Int) :
    ((c.mark_as_paid_by_user today now).1 = true →
      c.status = CycleStatus.PENDING ∧ c.days_until_due today ≤ 7) ∧
    (¬(c.status = CycleStatus.PENDING ∧ c.days_until_due today ≤ 7) →
      c.mark_as_paid_by_user today now = (false, c)) ∧
    ((c.toggle_user_mark_paid today now).2.user_marked_paid = true →
      c.user_marked_paid = true ∨
        (c.status = CycleStatus.PENDING ∧ c.days_until_due today ≤ 7)) := by
  have hiff := can_user_mark_paid_iff c today
  by_cases h : c.can_user_mark_paid today = true
  · refine ⟨fun _ => hiff.mp h, fun hw => absurd (hiff.mp h) hw, fun _ =>
      Or.inr (hiff.mp h)⟩
  · have hfalse : c.can_user_mark_paid today = false := by
      simpa using h
    refine ⟨?_, ?_, ?_⟩
    · intro habs
      rw [TaxCycle.mark_as_paid_by_user, hfalse] at habs
      simp at habs
    · intro _
      rw [TaxCycle.mark_as_paid_by_user, hfalse]
      simp
    · intro htog
      unfold TaxCycle.toggle_user_mark_paid at htog
      by_cases hm : c.user_marked_paid
      · exact Or.inl hm
      · rw [if_neg hm, TaxCycle.mark_as_paid_by_user, hfalse] at htog
        simp at htog
        exact absurd htog hm

/-- C1 witness: the amended theorem applied to the concrete pending cycle
with target 1,000,000 and amount 500,000. -/
theorem set_status_paid_below_target_persists_witness :
    (pendingCycle.status = CycleStatus.PENDING ∨
      pendingCycle.status = CycleStatus.OVERDUE) ∧
    (500000 : Rat) < pendingCycle.target_amount ∧
    ((pendingCycle.set_status_paid (some 500000) none sampleToday).status
        = CycleStatus.PAID ∧
      (pendingCycle.set_status_paid (some 500000) none sampleToday).paid_amount
        = some 500000 ∧
      (pendingCycle.set_status_paid (some 500000) none sampleToday).paid_date
        = some sampleToday ∧
      (pendingCycle.set_status_paid (some 500000) none sampleToday).clean
        ≠ Except.ok ()) :=
  ⟨Or.inl (by decide), by decide,
    set_status_paid_below_target_persists pendingCycle 500000 sampleToday
      (Or.inl (by decide)) (by decide)⟩

/-- C2 witness: the amended theorem applied to the concrete cycle due in
10 days. -/
theorem mark_as_paid_by_user_gated_witness :
    ¬(earlyPendingCycle.status = CycleStatus.PENDING ∧
        earlyPendingCycle.days_until_due sampleToday ≤ 7) ∧
    earlyPendingCycle.mark_as_paid_by_user sampleToday 5
      = (false, earlyPendingCycle) :=
  ⟨by decide,
    (mark_as_paid_by_user_gated earlyPendingCycle sampleToday 5).2.1
      (by decide)⟩

/-! ## Classifier lemmas -/



theorem classify_eq_advance_iff (c : TaxCycle) (today : Date)
    (config : DiscordNotificationConfig) :
    classifyNotificationType c today config = some Bucket.ADVANCE ↔
      dateDiffDays c.due_date today = (config.advance_notice_days : Int) ∧
        config.send_advance_notice = true := by
  unfold classifyNotificationType
  dsimp only
  split_ifs with h1 h2 h3
  · simp [h1]
  · constructor
    · intro h; simp at h
    · intro h; exact absurd h h1
  · constructor
    · intro h; simp at h
    · intro h; exact absurd h h1
  · constructor
    · intro h; simp at h
    · intro h; exact absurd h h1

theorem classify_eq_due_iff (c : TaxCycle) (today : Date)
    (config : DiscordNotificationConfig)
    (hadv : config.advance_notice_days ≠ 0) :
    classifyNotificationType c today config = some Bucket.DUE ↔
      dateDiffDays c.due_date today = 0 ∧ config.send_due_notice = true := by
  unfold classifyNotificationType
  dsimp only
  split_ifs with h1 h2 h3
  · constructor
    · intro h; simp at h
    · rintro ⟨h0, -⟩
      exfalso
      have := h1.1
      omega
  · simp [h2]
  · constructor
    · intro h; simp at h
    · intro h; exact absurd h h2
  · constructor
    · intro h; simp at h
    · intro h; exact absurd h h2

theorem classify_eq_overdue_iff (c : TaxCycle) (today : Date)
    (config : DiscordNotificationConfig)
    (hopen : c.status = CycleStatus.PENDING ∨
      c.status = CycleStatus.OVERDUE) :
    classifyNotificationType c today config = some Bucket.OVERDUE ↔
      dateDiffDays c.due_date today < 0 ∧
        config.send_overdue_notice = true := by
  unfold classifyNotificationType
  dsimp only
  split_ifs with h1 h2 h3
  · constructor
    · intro h; simp at h
    · rintro ⟨h0, -⟩
      exfalso
      have h1a := h1.1
      have : (0 : Int) ≤ (config.advance_notice_days : Int) := by positivity
      omega
  · constructor
    · intro h; simp at h
    · rintro ⟨h0, -⟩
      exfalso
      have := h2.1
      omega
  · simp [h3.1, h3.2.1]
  · constructor
    · intro h; simp at h
    · rintro ⟨h0, hs⟩
      exact absurd ⟨h0, hs, hopen⟩ h3

/-- C3: for every open cycle, as-of date and config with
`advance_notice_days ≠ 0`, the classifier result matches the three
independent spec conditions (hence at most one bucket, and no bucket when
none of them holds), those conditions are pairwise exclusive, and a cycle
with `due_date = today` under `advance_notice_days = 7` with every notice
type enabled lands in bucket `DUE`. -/
theorem classifier_exclusive_spec (c : TaxCycle) (today : Date)
    (config : DiscordNotificationConfig)
    (hopen : c.status = CycleStatus.PENDING ∨ c.status = CycleStatus.OVERDUE)
    (hadv : config.advance_notice_days ≠ 0) :
    (∀ b : Bucket, classifyNotificationType c today config = some b ↔
      specBucketCondition c today config b) ∧
    (∀ b1 b2 : Bucket, specBucketCondition c today config b1 →
      specBucketCondition c today config b2 → b1 = b2) ∧
    (c.due_date = today ∧ config.advance_notice_days = 7 ∧
        config.send_advance_notice = true ∧ config.send_due_notice = true ∧
        config.send_overdue_notice = true →
      classifyNotificationType c today config = some Bucket.DUE) := by
  refine ⟨?_, ?_, ?_⟩
  · intro b
    cases b
    · exact classify_eq_advance_iff c today config
    · exact classify_eq_due_iff c today config hadv
    · exact classify_eq_overdue_iff c today config hopen
  · intro b1 b2 hc1 hc2
    cases b1 <;> cases b2 <;> first
      | rfl
      | (exfalso
         obtain ⟨ha, -⟩ := hc1
         obtain ⟨hb, -⟩ := hc2
         omega)
  · rintro ⟨hdue, -, -, hd, -⟩
    refine (classify_eq_due_iff c today config hadv).mpr ⟨?_, hd⟩
    rw [hdue]
    exact sub_self _





/-- C3 witness: the classifier theorem applied to the concrete cycle due
today under the all-enabled config. -/
theorem classifier_exclusive_spec_witness :
    (dueTodayCycle.status = CycleStatus.PENDING ∨
      dueTodayCycle.status = CycleStatus.OVERDUE) ∧
    sampleConfig.advance_notice_days ≠ 0 ∧
    ((∀ b : Bucket,
        classifyNotificationType dueTodayCycle sampleToday sampleConfig
          = some b ↔
        specBucketCondition dueTodayCycle sampleToday sampleConfig b) ∧
      (∀ b1 b2 : Bucket,
        specBucketCondition dueTodayCycle sampleToday sampleConfig b1 →
        specBucketCondition dueTodayCycle sampleToday sampleConfig b2 →
        b1 = b2) ∧
      (dueTodayCycle.due_date = sampleToday ∧
          sampleConfig.advance_notice_days = 7 ∧
          sampleConfig.send_advance_notice = true ∧
          sampleConfig.send_due_notice = true ∧
          sampleConfig.send_overdue_notice = true →
        classifyNotificationType dueTodayCycle sampleToday sampleConfig
          = some Bucket.DUE)) :=
  ⟨Or.inl (by decide), by decide,
    classifier_exclusive_spec dueTodayCycle sampleToday sampleConfig
      (Or.inl (by decide)) (by decide)⟩

/-! ## Suppression (C4) -/

/-- C4: if a successful `BATCHED_<bucket>` log entry exists for a cycle id
on `today`, then no cycle with that id is selected for that bucket by a
sweep run on `today`. -/
theorem suppression_prevents_reselection (cycles : List TaxCycle)
    (log : List DiscordNotificationLog) (today : Date)
    (config : DiscordNotificationConfig) (e : DiscordNotificationLog)
    (b : Bucket) (cid : Nat)
    (he : e ∈ log) (hcid : e.tax_cycle = cid)
    (htype : e.notification_type = "BATCHED_" ++ b.name)
    (hdate : e.sent_date = today) (hsucc : e.success = true) :
    ∀ c ∈ selectedForBucket cycles log today config b, c.id ≠ cid := by
  intro c hc heq
  unfold selectedForBucket at hc
  rw [List.mem_filter] at hc
  have hsel := hc.2
  rw [Bool.and_eq_true] at hsel
  have hns : isSuppressedToday log c b today = false := by
    simpa using hsel.2
  have hsup : isSuppressedToday log c b today = true := by
    unfold isSuppressedToday
    rw [List.any_eq_true]
    refine ⟨e, he, ?_⟩
    simp [hcid, heq, htype, hdate, hsucc]
  rw [hns] at hsup
  exact Bool.false_ne_true hsup



/-- C4 witness: with `overdueCycle` (id 2, overdue on `sampleToday`) and
the successful `BATCHED_OVERDUE` entry in the log, a sweep run on
`sampleToday` selects no cycle with id 2 for bucket `OVERDUE`. -/
theorem suppression_prevents_reselection_witness :
    sampleLogEntry ∈ [sampleLogEntry] ∧
    sampleLogEntry.notification_type = "BATCHED_" ++ Bucket.OVERDUE.name ∧
    sampleLogEntry.success = true ∧
    (∀ c ∈ selectedForBucket [overdueCycle] [sampleLogEntry] sampleToday
        sampleConfig Bucket.OVERDUE, c.id ≠ 2) :=
  ⟨by decide, by decide, by decide,
    suppression_prevents_reselection [overdueCycle] [sampleLogEntry]
      sampleToday sampleConfig sampleLogEntry Bucket.OVERDUE 2
      (by decide) (by decide) (by decide) (by decide) (by decide)⟩

/-! ## Batch logging (C5) -/

/-- Count of elements sharing a key with a member of a list whose keys are
distinct. -/
theorem countP_key_eq_one {α β : Type} [DecidableEq β] (f : α → β) :
    ∀ (l : List α), (l.map f).Nodup → ∀ c ∈ l,
      l.countP (fun x => f x == f c) = 1 := by
  intro l
  induction l with
  | nil => intro _ c hc; cases hc
  | cons a l ih =>
    intro hnd c hc
    rw [List.map_cons, List.nodup_cons] at hnd
    rcases List.mem_cons.mp hc with rfl | hcl
    · rw [List.countP_cons]
      have hz : l.countP (fun x => f x == f c) = 0 := by
        rw [List.countP_eq_zero]
        intro x hx hbeq
        have hfx : f x = f c := by simpa using hbeq
        exact hnd.1 (hfx ▸ List.mem_map_of_mem f hx)
      simp [hz]
    · rw [List.countP_cons]
      have hfa : (f a == f c) = false := by
        rw [beq_eq_false_iff_ne]
        intro hfc
        exact hnd.1 (hfc ▸ List.mem_map_of_mem f hcl)
      rw [ih hnd.2 c hcl]
      simp [hfa]

/-- The selection for a bucket is a sublist of the cycle table. -/
theorem selectedForBucket_sublist (cycles : List TaxCycle)
    (log : List DiscordNotificationLog) (today : Date)
    (config : DiscordNotificationConfig) (b : Bucket) :
    List.Sublist (selectedForBucket cycles log today config b) cycles :=
  (List.filter_sublist _).trans (List.filter_sublist _)

/-- Membership in a bucket selection forces membership in the table and
the corresponding classification. -/
theorem selected_mem {cycles : List TaxCycle}
    {log : List DiscordNotificationLog} {today : Date}
    {config : DiscordNotificationConfig} {b : Bucket} {c : TaxCycle}
    (h : c ∈ selectedForBucket cycles log today config b) :
    c ∈ cycles ∧ classifyNotificationType c today config = some b := by
  unfold selectedForBucket openStatusFilter at h
  rw [List.mem_filter] at h
  obtain ⟨hmem, hcond⟩ := h
  rw [List.mem_filter] at hmem
  rw [Bool.and_eq_true] at hcond
  exact ⟨hmem.1, by simpa using hcond.1⟩

/-- Cycle ids appearing in the flattened batch are distinct when the
table's ids are. -/
theorem batched_ids_nodup {cycles : List TaxCycle}
    {log : List DiscordNotificationLog} {today : Date}
    {config : DiscordNotificationConfig}
    (hnd : (cycles.map TaxCycle.id).Nodup) :
    ((batchedCycles cycles log today config).map TaxCycle.id).Nodup := by
  have hinj : ∀ x ∈ cycles, ∀ y ∈ cycles,
      TaxCycle.id x = TaxCycle.id y → x = y :=
    List.inj_on_of_nodup_map hnd
  have hsub : ∀ b : Bucket,
      ((selectedForBucket cycles log today config b).map TaxCycle.id).Nodup :=
    fun b => List.Nodup.sublist
      (List.Sublist.map _ (selectedForBucket_sublist cycles log today config b))
      hnd
  have hdisj : ∀ b1 b2 : Bucket, b1 ≠ b2 →
      List.Disjoint
        ((selectedForBucket cycles log today config b1).map TaxCycle.id)
        ((selectedForBucket cycles log today config b2).map TaxCycle.id) := by
    intro b1 b2 hne v hv1 hv2
    obtain ⟨x, hx, hxv⟩ := List.mem_map.mp hv1
    obtain ⟨y, hy, hyv⟩ := List.mem_map.mp hv2
    obtain ⟨hxc, hxb⟩ := selected_mem hx
    obtain ⟨hyc, hyb⟩ := selected_mem hy
    have hxy : x = y := hinj x hxc y hyc (by rw [hxv, hyv])
    rw [hxy, hyb] at hxb
    exact hne (Option.some_inj.mp hxb).symm
  unfold batchedCycles
  rw [List.map_append, List.map_append, List.nodup_append, List.nodup_append]
  refine ⟨⟨hsub Bucket.ADVANCE, hsub Bucket.DUE,
    hdisj Bucket.ADVANCE Bucket.DUE (by decide)⟩, hsub Bucket.OVERDUE, ?_⟩
  rw [List.disjoint_append_left]
  exact ⟨hdisj Bucket.ADVANCE Bucket.OVERDUE (by decide),
    hdisj Bucket.DUE Bucket.OVERDUE (by decide)⟩

/-- C5: whenever the classification result is non-empty, the sweep makes
exactly one webhook POST and appends exactly one log entry per batched
cycle, every entry carrying the delivery's success flag, response status
and error text. -/
theorem sweep_single_message_uniform_logs (cycles : List TaxCycle)
    (log : List DiscordNotificationLog) (today : Date)
    (configs : List DiscordNotificationConfig)
    (delivery : Bool × Int × String) (config : DiscordNotificationConfig)
    (hcfg : configs.find? (fun k => k.is_active) = some config)
    (hnd : (cycles.map TaxCycle.id).Nodup)
    (hne : batchedCycles cycles log today config ≠ []) :
    (process_all_tax_cycle_notifications cycles log today configs
        delivery).posts = 1 ∧
    (process_all_tax_cycle_notifications cycles log today configs
        delivery).new_logs.length
      = (batchedCycles cycles log today config).length ∧
    (∀ c ∈ batchedCycles cycles log today config,
      (process_all_tax_cycle_notifications cycles log today configs
          delivery).new_logs.countP (fun e => e.tax_cycle == c.id) = 1) ∧
    (∀ e ∈ (process_all_tax_cycle_notifications cycles log today configs
        delivery).new_logs,
      e.success = delivery.1 ∧ e.response_status = some delivery.2.1 ∧
        e.error_message = delivery.2.2) := by
  have hempty : (batchedCycles cycles log today config).isEmpty = false := by
    cases hb : batchedCycles cycles log today config with
    | nil => exact absurd hb hne
    | cons x xs => rfl
  have hres : process_all_tax_cycle_notifications cycles log today configs
      delivery =
      { summary := { cycles_checked := (openStatusFilter cycles).length
                     notifications_sent :=
                       if delivery.1 then
                         (batchedCycles cycles log today config).length
                       else 0
                     notifications_failed :=
                       if delivery.1 then 0
                       else (batchedCycles cycles log today config).length
                     batched_messages_sent := if delivery.1 then 1 else 0
                     config_found := true }
        posts := 1
        new_logs := (batchedCycles cycles log today config).map fun c =>
          log_notification c.id ("BATCHED_" ++ logTypeFor c today config)
            config.webhook_base_url today delivery.1 (some delivery.2.1)
            delivery.2.2 } := by
    unfold process_all_tax_cycle_notifications
    rw [hcfg]
    simp only [hempty, Bool.false_eq_true, if_false]
  rw [hres]
  refine ⟨rfl, by simp, ?_, ?_⟩
  · intro c hc
    have hmap : (((batchedCycles cycles log today config).map fun x =>
        log_notification x.id ("BATCHED_" ++ logTypeFor x today config)
          config.webhook_base_url today delivery.1 (some delivery.2.1)
          delivery.2.2).countP fun e => e.tax_cycle == c.id)
        = (batchedCycles cycles log today config).countP
            fun x => x.id == c.id := by
      rw [List.countP_map]
      rfl
    dsimp only
    rw [hmap]
    exact countP_key_eq_one TaxCycle.id _ (batched_ids_nodup hnd) c hc
  · intro e he
    dsimp only at he
    obtain ⟨c, hc, rfl⟩ := List.mem_map.mp he
    exact ⟨rfl, rfl, rfl⟩



/-- C5 witness: two overdue cycles, empty log, active config, successful
delivery — the sweep theorem applied to this concrete input. -/
theorem sweep_single_message_uniform_logs_witness :
    [sampleConfig].find? (fun k => k.is_active) = some sampleConfig ∧
    (([overdueCycle, overdueCycleB].map TaxCycle.id).Nodup) ∧
    batchedCycles [overdueCycle, overdueCycleB] [] sampleToday sampleConfig
      ≠ [] ∧
    ((process_all_tax_cycle_notifications [overdueCycle, overdueCycleB] []
        sampleToday [sampleConfig] (true, 204, "")).posts = 1 ∧
      (process_all_tax_cycle_notifications [overdueCycle, overdueCycleB] []
          sampleToday [sampleConfig] (true, 204, "")).new_logs.length
        = (batchedCycles [overdueCycle, overdueCycleB] [] sampleToday
            sampleConfig).length ∧
      (∀ c ∈ batchedCycles [overdueCycle, overdueCycleB] [] sampleToday
          sampleConfig,
        (process_all_tax_cycle_notifications [overdueCycle, overdueCycleB]
            [] sampleToday [sampleConfig] (true, 204, "")).new_logs.countP
          (fun e => e.tax_cycle == c.id) = 1) ∧
      (∀ e ∈ (process_all_tax_cycle_notifications [overdueCycle,
          overdueCycleB] [] sampleToday [sampleConfig]
          (true, 204, "")).new_logs,
        e.success = (true, 204, "").1 ∧
          e.response_status = some (true, 204, "").2.1 ∧
          e.error_message = (true, 204, "").2.2)) :=
  ⟨by decide, by decide, by decide,
    sweep_single_message_uniform_logs [overdueCycle, overdueCycleB] []
      sampleToday [sampleConfig] (true, 204, "") sampleConfig
      (by decide) (by decide) (by decide)⟩

/-! ## Missing status-management methods (C10) -/

/-- C10: the frontend views `mark_cycle_paid` and `exempt_cycle` and the
admin bulk actions `mark_as_paid`, `mark_as_overdue` and
`write_off_selected` invoke `mark_paid`, `mark_overdue` and `write_off`,
none of which `TaxCycle` defines (it defines `set_status_paid`,
`set_status_written_off`, `set_status_pending`); each invocation raises
`AttributeError` and leaves the row unchanged. -/
theorem undefined_status_methods_raise (c : TaxCycle) (today : Date) :
    mark_cycle_paid_view c today = (c, some "AttributeError: mark_paid") ∧
    exempt_cycle_view c today = (c, some "AttributeError: write_off") ∧
    (c.status = CycleStatus.PENDING ∨ c.status = CycleStatus.OVERDUE →
      admin_mark_as_paid_cycle c today
        = (c, some "AttributeError: mark_paid")) ∧
    (c.status = CycleStatus.PENDING →
      admin_mark_as_overdue_cycle c today
        = (c, some "AttributeError: mark_overdue")) ∧
    (c.status ≠ CycleStatus.WRITTEN_OFF →
      admin_write_off_cycle c today
        = (c, some "AttributeError: write_off")) := by
  have hmp : invokeByName c "mark_paid" today
      = (c, some "AttributeError: mark_paid") := by
    unfold invokeByName
    rw [if_neg (by decide)]
    simp
  have hmo : invokeByName c "mark_overdue" today
      = (c, some "AttributeError: mark_overdue") := by
    unfold invokeByName
    rw [if_neg (by decide)]
    simp
  have hwo : invokeByName c "write_off" today
      = (c, some "AttributeError: write_off") := by
    unfold invokeByName
    rw [if_neg (by decide)]
    simp
  refine ⟨hmp, hwo, ?_, ?_, ?_⟩
  · intro h
    unfold admin_mark_as_paid_cycle
    rw [if_pos h]
    exact hmp
  · intro h
    unfold admin_mark_as_overdue_cycle
    rw [if_pos h]
    exact hmo
  · intro h
    unfold admin_write_off_cycle
    rw [if_pos h]
    exact hwo

/-- C10 witness: the theorem applied to the concrete pending cycle, with
each guard discharged. -/
theorem undefined_status_methods_raise_witness :
    (pendingCycle.status = CycleStatus.PENDING ∨
      pendingCycle.status = CycleStatus.OVERDUE) ∧
    pendingCycle.status = CycleStatus.PENDING ∧
    pendingCycle.status ≠ CycleStatus.WRITTEN_OFF ∧
    admin_mark_as_paid_cycle pendingCycle sampleToday
      = (pendingCycle, some "AttributeError: mark_paid") ∧
    admin_mark_as_overdue_cycle pendingCycle sampleToday
      = (pendingCycle, some "AttributeError: mark_overdue") ∧
    admin_write_off_cycle pendingCycle sampleToday
      = (pendingCycle, some "AttributeError: write_off") := by
  have h := undefined_status_methods_raise pendingCycle sampleToday
  exact ⟨Or.inl (by decide), by decide, by decide,
    h.2.2.1 (Or.inl (by decide)), h.2.2.2.1 (by decide),
    h.2.2.2.2 (by decide)⟩

/-! ## Generator: a month with no rate is skipped (C7) -/

/-- C7: for a target month with no existing cycle, when the resolved
default amount is zero-or-less the generator creates no cycle for that
(resource, month) and counts the month as skipped. -/
theorem generator_skips_month_without_rate
    (assignments : List SystemObligationType) (s : SystemOwnership)
    (st : GenState) (idx : Int)
    (hnone : findCycle st.cycles s.id (firstDayOfMonthIndex idx) = none)
    (hamt : s.get_current_tax_amount ≤ 0) :
    (processMonth assignments s st idx).cycles = st.cycles ∧
    (processMonth assignments s st idx).created = st.created ∧
    (processMonth assignments s st idx).skipped = st.skipped + 1 := by
  unfold processMonth
  dsimp only
  rw [hnone]
  rw [if_pos (Or.inr hamt)]
  exact ⟨rfl, rfl, rfl⟩





/-- C7 witness: the theorem applied to the zero-rate system, the empty
state and October 2026 (month number 24321). -/
theorem generator_skips_month_without_rate_witness :
    findCycle emptyGenState.cycles zeroRateSystem.id
      (firstDayOfMonthIndex 24321) = none ∧
    zeroRateSystem.get_current_tax_amount ≤ 0 ∧
    ((processMonth [] zeroRateSystem emptyGenState 24321).cycles
        = emptyGenState.cycles ∧
      (processMonth [] zeroRateSystem emptyGenState 24321).created
        = emptyGenState.created ∧
      (processMonth [] zeroRateSystem emptyGenState 24321).skipped
        = emptyGenState.skipped + 1) :=
  ⟨by decide, by decide,
    generator_skips_month_without_rate [] zeroRateSystem emptyGenState
      24321 (by decide) (by decide)⟩

/-! ## Generator idempotence (C6): month arithmetic -/

theorem monthIndex_firstOfMonth (d : Date) :
    monthIndex d.firstOfMonth = monthIndex d := rfl

theorem firstOfMonth_firstDayOfMonthIndex (i : Int) :
    (firstDayOfMonthIndex i).firstOfMonth = firstDayOfMonthIndex i := rfl

theorem monthIndex_firstDayOfMonthIndex (i : Int) :
    monthIndex (firstDayOfMonthIndex i) = i := by
  unfold monthIndex firstDayOfMonthIndex
  dsimp only
  omega

theorem valid_firstDayOfMonthIndex (i : Int) :
    (firstDayOfMonthIndex i).Valid := by
  unfold firstDayOfMonthIndex Date.Valid
  dsimp only
  omega

theorem key_le_monthIndex_le {a b : Date} (ha : a.Valid) (hb : b.Valid)
    (h : a.key ≤ b.key) : monthIndex a ≤ monthIndex b := by
  unfold Date.key at h
  unfold Date.Valid at ha hb
  unfold monthIndex
  omega

theorem mem_monthRangeList {a b i : Int} :
    i ∈ monthRangeList a b ↔ a ≤ i ∧ i ≤ b := by
  unfold monthRangeList
  constructor
  · intro h
    obtain ⟨k, hk, hik⟩ := List.mem_map.mp h
    rw [List.mem_range] at hk
    omega
  · intro h
    refine List.mem_map.mpr ⟨(i - a).toNat, ?_, ?_⟩
    · rw [List.mem_range]
      omega
    · omega

/-! ## Generator idempotence (C6): the chronological minimum -/

theorem earliestStep_none (c : TaxCycle) :
    earliestStep none c = some c.period_start := rfl

theorem earliestStep_some (e : Date) (c : TaxCycle) :
    earliestStep (some e) c =
      if c.period_start.key < e.key then some c.period_start else some e :=
  rfl

theorem earliestStep_ne_none (acc : Option Date) (c : TaxCycle) :
    earliestStep acc c ≠ none := by
  cases acc with
  | none => rw [earliestStep_none]; simp
  | some e =>
      rw [earliestStep_some]
      split_ifs <;> simp

theorem earliest_fold_some (l : List TaxCycle) :
    ∀ (acc : Option Date) (e : Date), l.foldl earliestStep acc = some e →
      (acc = some e ∨ ∃ c ∈ l, c.period_start = e) ∧
      (∀ c ∈ l, e.key ≤ c.period_start.key) ∧
      (∀ e0, acc = some e0 → e.key ≤ e0.key) := by
  induction l with
  | nil =>
      intro acc e h
      rw [List.foldl_nil] at h
      refine ⟨Or.inl h, by simp, ?_⟩
      intro e0 he0
      rw [h] at he0
      rw [Option.some_inj.mp he0]
  | cons a l ih =>
      intro acc e h
      rw [List.foldl_cons] at h
      obtain ⟨h1, h2, h3⟩ := ih (earliestStep acc a) e h
      refine ⟨?_, ?_, ?_⟩
      · rcases h1 with hacc | ⟨c, hc, hps⟩
        · cases acc with
          | none =>
              rw [earliestStep_none] at hacc
              exact Or.inr ⟨a, List.mem_cons_self a l,
                Option.some_inj.mp hacc⟩
          | some e0 =>
              rw [earliestStep_some] at hacc
              by_cases hlt : a.period_start.key < e0.key
              · rw [if_pos hlt] at hacc
                exact Or.inr ⟨a, List.mem_cons_self a l,
                  Option.some_inj.mp hacc⟩
              · rw [if_neg hlt] at hacc
                exact Or.inl hacc
        · exact Or.inr ⟨c, List.mem_cons_of_mem a hc, hps⟩
      · intro c hc
        rcases List.mem_cons.mp hc with rfl | hcl
        · cases acc with
          | none => exact h3 c.period_start (earliestStep_none c)
          | some e0 =>
              by_cases hlt : c.period_start.key < e0.key
              · exact h3 c.period_start
                  (by rw [earliestStep_some, if_pos hlt])
              · have he0 := h3 e0 (by rw [earliestStep_some, if_neg hlt])
                omega
        · exact h2 c hcl
      · intro e0 he0
        subst he0
        by_cases hlt : a.period_start.key < e0.key
        · have ha := h3 a.period_start
            (by rw [earliestStep_some, if_pos hlt])
          omega
        · exact h3 e0 (by rw [earliestStep_some, if_neg hlt])

theorem earliestPeriodStart_eq_none {l : List TaxCycle}
    (h : earliestPeriodStart l = none) : l = [] := by
  cases l with
  | nil => rfl
  | cons a l =>
      exfalso
      unfold earliestPeriodStart at h
      rw [List.foldl_cons] at h
      -- a non-`none` accumulator never becomes `none` again
      have hacc : ∀ (l2 : List TaxCycle) (acc : Option Date), acc ≠ none →
          l2.foldl earliestStep acc ≠ none := by
        intro l2
        induction l2 with
        | nil => intro acc hne; simpa using hne
        | cons b l2 ih2 =>
            intro acc hne
            rw [List.foldl_cons]
            exact ih2 _ (earliestStep_ne_none acc b)
      exact hacc l (earliestStep none a) (earliestStep_ne_none none a) h

theorem earliestPeriodStart_spec {l : List TaxCycle} {e : Date}
    (h : earliestPeriodStart l = some e) :
    (∃ c ∈ l, c.period_start = e) ∧ ∀ c ∈ l, e.key ≤ c.period_start.key := by
  obtain ⟨h1, h2, -⟩ := earliest_fold_some l none e h
  rcases h1 with habs | hex
  · cases habs
  · exact ⟨hex, h2⟩

/-! ## Generator idempotence (C6): single-month lemmas -/

theorem findCycle_eq_none_iff {cycles : List TaxCycle} {sid : Nat}
    {ps : Date} :
    findCycle cycles sid ps = none ↔
      ∀ c ∈ cycles, ¬(c.system_ownership = sid ∧ c.period_start = ps) := by
  unfold findCycle
  rw [List.find?_eq_none]
  simp

theorem processMonth_shape (a : List SystemObligationType)
    (s : SystemOwnership) (st : GenState) (idx : Int) :
    ∃ adds, (processMonth a s st idx).cycles = st.cycles ++ adds ∧
      ∀ x ∈ adds, x.system_ownership = s.id ∧
        x.period_start = firstDayOfMonthIndex idx := by
  cases hfc : findCycle st.cycles s.id (firstDayOfMonthIndex idx) with
  | some ex =>
      refine ⟨[], ?_, by simp⟩
      unfold processMonth
      dsimp only
      rw [hfc]
      simp
  | none =>
      by_cases h : s.get_current_tax_amount = 0 ∨
          s.get_current_tax_amount ≤ 0
      · refine ⟨[], ?_, by simp⟩
        unfold processMonth
        dsimp only
        rw [hfc, if_pos h]
        simp
      · refine ⟨[newCycleFor s st idx], ?_, ?_⟩
        · unfold processMonth
          dsimp only
          rw [hfc, if_neg h]
          rfl
        · intro x hx
          rw [List.mem_singleton] at hx
          subst hx
          exact ⟨rfl, rfl⟩

theorem processMonth_skip (a : List SystemObligationType)
    (s : SystemOwnership) (st : GenState) (idx : Int)
    (h : s.get_current_tax_amount ≤ 0 ∨
      ∃ c ∈ st.cycles, c.system_ownership = s.id ∧
        c.period_start = firstDayOfMonthIndex idx) :
    (processMonth a s st idx).cycles = st.cycles ∧
      (processMonth a s st idx).created = st.created := by
  cases hfc : findCycle st.cycles s.id (firstDayOfMonthIndex idx) with
  | some ex =>
      unfold processMonth
      dsimp only
      rw [hfc]
      exact ⟨rfl, rfl⟩
  | none =>
      have hamt : s.get_current_tax_amount ≤ 0 := by
        rcases h with hamt | ⟨c, hc, hprops⟩
        · exact hamt
        · exact absurd hprops (findCycle_eq_none_iff.mp hfc c hc)
      unfold processMonth
      dsimp only
      rw [hfc, if_pos (Or.inr hamt)]
      exact ⟨rfl, rfl⟩

theorem processMonth_covers (a : List SystemObligationType)
    (s : SystemOwnership) (st : GenState) (idx : Int)
    (hamt : 0 < s.get_current_tax_amount) :
    ∃ c ∈ (processMonth a s st idx).cycles,
      c.system_ownership = s.id ∧
        c.period_start = firstDayOfMonthIndex idx := by
  cases hfc : findCycle st.cycles s.id (firstDayOfMonthIndex idx) with
  | some ex =>
      have hmem : ex ∈ st.cycles := List.mem_of_find?_eq_some hfc
      have hp := List.find?_some hfc
      rw [Bool.and_eq_true, beq_iff_eq, beq_iff_eq] at hp
      have hcy : (processMonth a s st idx).cycles = st.cycles := by
        unfold processMonth
        dsimp only
        rw [hfc]
      exact ⟨ex, by rw [hcy]; exact hmem, hp.1, hp.2⟩
  | none =>
      have hcond : ¬(s.get_current_tax_amount = 0 ∨
          s.get_current_tax_amount ≤ 0) := by
        rintro (h0 | hle)
        · rw [h0] at hamt
          exact lt_irrefl 0 hamt
        · exact absurd hamt (not_lt.mpr hle)
      have hcy : (processMonth a s st idx).cycles
          = st.cycles ++ [newCycleFor s st idx] := by
        unfold processMonth
        dsimp only
        rw [hfc, if_neg hcond]
        rfl
      refine ⟨newCycleFor s st idx, ?_, rfl, rfl⟩
      rw [hcy]
      exact List.mem_append_right _ (List.mem_singleton_self _)

/-! ## Generator idempotence (C6): month-loop lemmas -/

theorem foldl_processMonth_shape (a : List SystemObligationType)
    (s : SystemOwnership) :
    ∀ (r : List Int) (st : GenState),
      ∃ adds, (r.foldl (processMonth a s) st).cycles = st.cycles ++ adds ∧
        ∀ x ∈ adds, x.system_ownership = s.id ∧
          ∃ i ∈ r, x.period_start = firstDayOfMonthIndex i := by
  intro r
  induction r with
  | nil => intro st; exact ⟨[], by simp, by simp⟩
  | cons i r ih =>
      intro st
      obtain ⟨a1, h1, hp1⟩ := processMonth_shape a s st i
      obtain ⟨a2, h2, hp2⟩ := ih (processMonth a s st i)
      refine ⟨a1 ++ a2, ?_, ?_⟩
      · rw [List.foldl_cons, h2, h1, List.append_assoc]
      · intro x hx
        rcases List.mem_append.mp hx with hx1 | hx2
        · exact ⟨(hp1 x hx1).1, i, List.mem_cons_self i r, (hp1 x hx1).2⟩
        · obtain ⟨hs, j, hj, hps⟩ := hp2 x hx2
          exact ⟨hs, j, List.mem_cons_of_mem i hj, hps⟩

theorem foldl_processMonth_covers (a : List SystemObligationType)
    (s : SystemOwnership) (hamt : 0 < s.get_current_tax_amount) :
    ∀ (r : List Int) (st : GenState), ∀ i ∈ r,
      ∃ c ∈ (r.foldl (processMonth a s) st).cycles,
        c.system_ownership = s.id ∧
          c.period_start = firstDayOfMonthIndex i := by
  intro r
  induction r with
  | nil => intro st i hi; cases hi
  | cons j r ih =>
      intro st i hi
      rw [List.foldl_cons]
      rcases List.mem_cons.mp hi with rfl | hir
      · obtain ⟨c, hc, hcp⟩ := processMonth_covers a s st i hamt
        obtain ⟨adds, hadds, -⟩ :=
          foldl_processMonth_shape a s r (processMonth a s st i)
        exact ⟨c, by rw [hadds]; exact List.mem_append_left _ hc, hcp⟩
      · exact ih (processMonth a s st j) i hir

theorem foldl_processMonth_skips (a : List SystemObligationType)
    (s : SystemOwnership) :
    ∀ (r : List Int) (st : GenState),
      (∀ i ∈ r, s.get_current_tax_amount ≤ 0 ∨
        ∃ c ∈ st.cycles, c.system_ownership = s.id ∧
          c.period_start = firstDayOfMonthIndex i) →
      (r.foldl (processMonth a s) st).cycles = st.cycles ∧
        (r.foldl (processMonth a s) st).created = st.created := by
  intro r
  induction r with
  | nil => intro st _; exact ⟨rfl, rfl⟩
  | cons i r ih =>
      intro st h
      have hstep := processMonth_skip a s st i (h i (List.mem_cons_self i r))
      rw [List.foldl_cons]
      have hrest := ih (processMonth a s st i) (fun j hj => by
        rw [hstep.1]
        exact h j (List.mem_cons_of_mem i hj))
      exact ⟨hrest.1.trans hstep.1, hrest.2.trans hstep.2⟩

/-! ## Generator idempotence (C6): range stability and coverage -/



/-- Appending rows whose months already lie inside a system's loop range
does not change that range. -/
theorem systemMonthRange_append (cycles adds : List TaxCycle)
    (s : SystemOwnership) (today : Date)
    (hvalid : ∀ c ∈ cycles, c.system_ownership = s.id →
      c.period_start.Valid)
    (hadds : ∀ x ∈ adds, x.system_ownership = s.id ∧
      ∃ i ∈ systemMonthRange cycles s today,
        x.period_start = firstDayOfMonthIndex i) :
    systemMonthRange (cycles ++ adds) s today
      = systemMonthRange cycles s today := by
  have hafilter : adds.filter
      (fun c => c.system_ownership == s.id) = adds := by
    rw [List.filter_eq_self]
    intro x hx
    rw [beq_iff_eq]
    exact (hadds x hx).1
  have hux : ∀ x ∈ adds, ∃ i ∈ systemMonthRange cycles s today,
      x.period_start = firstDayOfMonthIndex i := fun x hx => (hadds x hx).2
  unfold systemMonthRange
  dsimp only
  rw [List.filter_append, hafilter]
  congr 1
  cases h0 : earliestPeriodStart
      (cycles.filter fun c => c.system_ownership == s.id) with
  | none =>
      -- the system has no cycles: its range is the single current month
      have hnil : cycles.filter (fun c => c.system_ownership == s.id) = [] :=
        earliestPeriodStart_eq_none h0
      cases h1 : earliestPeriodStart
          ((cycles.filter fun c => c.system_ownership == s.id) ++ adds) with
      | none => rfl
      | some e =>
          obtain ⟨⟨x, hx, hxe⟩, -⟩ := earliestPeriodStart_spec h1
          rw [hnil, List.nil_append] at hx
          obtain ⟨i, hi, hips⟩ := hux x hx
          have hieq : i = monthIndex today.firstOfMonth := by
            unfold systemMonthRange at hi
            dsimp only at hi
            rw [h0] at hi
            dsimp only at hi
            have hb := mem_monthRangeList.mp hi
            omega
          dsimp only
          rw [← hxe, hips, hieq, firstOfMonth_firstDayOfMonthIndex,
            monthIndex_firstDayOfMonthIndex]
  | some e0 =>
      obtain ⟨⟨c0, hc0, hc0e⟩, hmin0⟩ := earliestPeriodStart_spec h0
      have hc0mem := List.mem_filter.mp hc0
      have hc0sys : c0.system_ownership = s.id := by
        have hb := hc0mem.2
        rwa [beq_iff_eq] at hb
      have he0valid : e0.Valid := by
        rw [← hc0e]
        exact hvalid c0 hc0mem.1 hc0sys
      cases h1 : earliestPeriodStart
          ((cycles.filter fun c => c.system_ownership == s.id) ++ adds) with
      | none =>
          exfalso
          have hn := earliestPeriodStart_eq_none h1
          rw [List.append_eq_nil] at hn
          rw [hn.1] at h0
          cases h0
      | some e1 =>
          obtain ⟨⟨c1, hc1, hc1e⟩, hmin1⟩ := earliestPeriodStart_spec h1
          have he1le : e1.key ≤ e0.key := by
            have hm := hmin1 c0 (List.mem_append_left _ hc0)
            rw [hc0e] at hm
            exact hm
          have hgoal : monthIndex e1 = monthIndex e0 := by
            rcases List.mem_append.mp hc1 with hcf | hca
            · -- the new minimum is an old row: keys coincide
              have he1valid : e1.Valid := by
                have hsys : c1.system_ownership = s.id := by
                  have hb := (List.mem_filter.mp hcf).2
                  rwa [beq_iff_eq] at hb
                rw [← hc1e]
                exact hvalid c1 (List.mem_filter.mp hcf).1 hsys
              have h0le : e0.key ≤ e1.key := by
                have hm := hmin0 c1 hcf
                rw [hc1e] at hm
                exact hm
              exact le_antisymm
                (key_le_monthIndex_le he1valid he0valid he1le)
                (key_le_monthIndex_le he0valid he1valid h0le)
            · -- the new minimum is an appended row: its month is the
              -- start of the old range
              obtain ⟨i, hi, hips⟩ := hux c1 hca
              have hie : e1 = firstDayOfMonthIndex i := by
                rw [← hc1e, hips]
              have hibound : monthIndex e0.firstOfMonth ≤ i := by
                unfold systemMonthRange at hi
                dsimp only at hi
                rw [h0] at hi
                dsimp only at hi
                exact (mem_monthRangeList.mp hi).1
              have hile : monthIndex e1 ≤ monthIndex e0 :=
                key_le_monthIndex_le
                  (hie ▸ valid_firstDayOfMonthIndex i) he0valid he1le
              rw [hie, monthIndex_firstDayOfMonthIndex]
              rw [hie, monthIndex_firstDayOfMonthIndex] at hile
              rw [monthIndex_firstOfMonth] at hibound
              omega
          dsimp only
          rw [monthIndex_firstOfMonth, monthIndex_firstOfMonth, hgoal]

/-- The cycles appended by one system's processing are that system's own
rows, with months taken from its loop range. -/
theorem processSystem_shape (a : List SystemObligationType) (today : Date)
    (st : GenState) (s : SystemOwnership) :
    ∃ adds, (processSystem a today st s).cycles = st.cycles ++ adds ∧
      ∀ x ∈ adds, x.system_ownership = s.id ∧
        ∃ i ∈ systemMonthRange st.cycles s today,
          x.period_start = firstDayOfMonthIndex i := by
  unfold processSystem
  exact foldl_processMonth_shape a s (systemMonthRange st.cycles s today) st

theorem processSystem_valid (a : List SystemObligationType) (today : Date)
    (st : GenState) (s : SystemOwnership)
    (hvalid : ∀ c ∈ st.cycles, c.period_start.Valid) :
    ∀ c ∈ (processSystem a today st s).cycles, c.period_start.Valid := by
  obtain ⟨adds, heq, hp⟩ := processSystem_shape a today st s
  intro c hc
  rw [heq] at hc
  rcases List.mem_append.mp hc with hc1 | hc2
  · exact hvalid c hc1
  · obtain ⟨-, i, -, hps⟩ := hp c hc2
    rw [hps]
    exact valid_firstDayOfMonthIndex i

theorem processSystem_covered (a : List SystemObligationType)
    (today : Date) (st : GenState) (s : SystemOwnership)
    (hvalid : ∀ c ∈ st.cycles, c.period_start.Valid) :
    SystemCovered (processSystem a today st s).cycles s today := by
  by_cases hamt : s.get_current_tax_amount ≤ 0
  · intro i _
    exact Or.inl hamt
  · have hpos : 0 < s.get_current_tax_amount := lt_of_not_le hamt
    obtain ⟨adds, heq, hp⟩ := processSystem_shape a today st s
    have hstable : systemMonthRange (processSystem a today st s).cycles s
        today = systemMonthRange st.cycles s today := by
      rw [heq]
      exact systemMonthRange_append st.cycles adds s today
        (fun c hc _ => hvalid c hc) hp
    intro i hi
    rw [hstable] at hi
    right
    unfold processSystem
    exact foldl_processMonth_covers a s hpos
      (systemMonthRange st.cycles s today) st i hi

theorem processSystem_preserves_covered (a : List SystemObligationType)
    (today : Date) (st : GenState) (s s2 : SystemOwnership)
    (hne : s2.id ≠ s.id) (hcov : SystemCovered st.cycles s2 today) :
    SystemCovered (processSystem a today st s).cycles s2 today := by
  obtain ⟨adds, heq, hp⟩ := processSystem_shape a today st s
  have hafilter : adds.filter (fun c => c.system_ownership == s2.id)
      = [] := by
    rw [List.filter_eq_nil_iff]
    intro x hx hbeq
    rw [beq_iff_eq] at hbeq
    exact hne ((hp x hx).1.symm.trans hbeq).symm
  have hrange : systemMonthRange (processSystem a today st s).cycles s2
      today = systemMonthRange st.cycles s2 today := by
    rw [heq]
    unfold systemMonthRange
    dsimp only
    rw [List.filter_append, hafilter, List.append_nil]
  intro i hi
  rw [hrange] at hi
  rcases hcov i hi with hl | ⟨c, hc, hcp⟩
  · exact Or.inl hl
  · exact Or.inr ⟨c, by rw [heq]; exact List.mem_append_left _ hc, hcp⟩

/-- A covered system's processing is a pure skip: no cycle row and no
creation count change. -/
theorem processSystem_skip (a : List SystemObligationType) (today : Date)
    (st : GenState) (s : SystemOwnership)
    (hcov : SystemCovered st.cycles s today) :
    (processSystem a today st s).cycles = st.cycles ∧
      (processSystem a today st s).created = st.created := by
  unfold processSystem
  exact foldl_processMonth_skips a s (systemMonthRange st.cycles s today)
    st hcov

theorem foldl_processSystem_preserves_covered
    (a : List SystemObligationType) (today : Date) :
    ∀ (systems : List SystemOwnership) (st : GenState)
      (s2 : SystemOwnership),
      (∀ s ∈ systems, s.id ≠ s2.id) → SystemCovered st.cycles s2 today →
      SystemCovered
        ((systems.foldl (processSystem a today) st).cycles) s2 today := by
  intro systems
  induction systems with
  | nil => intro st s2 _ h; exact h
  | cons s rest ih =>
      intro st s2 hne hcov
      rw [List.foldl_cons]
      exact ih (processSystem a today st s) s2
        (fun x hx => hne x (List.mem_cons_of_mem s hx))
        (processSystem_preserves_covered a today st s s2
          (hne s (List.mem_cons_self s rest)).symm hcov)

theorem foldl_processSystem_valid (a : List SystemObligationType)
    (today : Date) :
    ∀ (systems : List SystemOwnership) (st : GenState),
      (∀ c ∈ st.cycles, c.period_start.Valid) →
      ∀ c ∈ (systems.foldl (processSystem a today) st).cycles,
        c.period_start.Valid := by
  intro systems
  induction systems with
  | nil => intro st h; exact h
  | cons s rest ih =>
      intro st h
      rw [List.foldl_cons]
      exact ih (processSystem a today st s)
        (processSystem_valid a today st s h)

/-- After one full generation pass, every processed system is covered. -/
theorem run_covers_all (a : List SystemObligationType) (today : Date) :
    ∀ (systems : List SystemOwnership) (st : GenState),
      (∀ c ∈ st.cycles, c.period_start.Valid) →
      (systems.map SystemOwnership.id).Nodup →
      ∀ s ∈ systems,
        SystemCovered
          ((systems.foldl (processSystem a today) st).cycles) s today := by
  intro systems
  induction systems with
  | nil => intro st _ _ s hs; cases hs
  | cons s0 rest ih =>
      intro st hvalid hnd s hs
      rw [List.map_cons, List.nodup_cons] at hnd
      rw [List.foldl_cons]
      rcases List.mem_cons.mp hs with rfl | hsr
      · refine foldl_processSystem_preserves_covered a today rest
          (processSystem a today st s) s ?_ ?_
        · intro x hx heq
          exact hnd.1 (heq ▸ List.mem_map_of_mem _ hx)
        · exact processSystem_covered a today st s hvalid
      · exact ih (processSystem a today st s0)
          (processSystem_valid a today st s0 hvalid) hnd.2 s hsr

/-- A pass over covered systems changes neither the cycle table nor the
creation counter. -/
theorem run_on_covered_creates_nothing (a : List SystemObligationType)
    (today : Date) :
    ∀ (systems : List SystemOwnership) (st : GenState),
      (∀ s ∈ systems, SystemCovered st.cycles s today) →
      (systems.foldl (processSystem a today) st).created = st.created ∧
        (systems.foldl (processSystem a today) st).cycles = st.cycles := by
  intro systems
  induction systems with
  | nil => intro st _; exact ⟨rfl, rfl⟩
  | cons s rest ih =>
      intro st h
      have hstep := processSystem_skip a today st s
        (h s (List.mem_cons_self s rest))
      rw [List.foldl_cons]
      have hrest := ih (processSystem a today st s) (fun s2 hs2 => by
        rw [hstep.1]
        exact h s2 (List.mem_cons_of_mem s hs2))
      exact ⟨hrest.1.trans hstep.2, hrest.2.trans hstep.1⟩

/-- C6: cycle generation is idempotent per day — a second run with the
same `today` over the tables produced by the first run creates zero new
cycles. -/
theorem generation_idempotent (systems : List SystemOwnership)
    (cycles0 : List TaxCycle) (obls0 obls1 : List TaxCycleObligation)
    (assignments : List SystemObligationType) (today : Date)
    (nid0 nid1 : Nat)
    (hvalid : ∀ c ∈ cycles0, c.period_start.Valid)
    (hids : (systems.map SystemOwnership.id).Nodup) :
    (generate_monthly_tax_cycles systems
      (generate_monthly_tax_cycles systems cycles0 obls0 assignments today
        nid0).cycles
      obls1 assignments today nid1).created = 0 := by
  have hnd : ((systems.filter (fun s => s.tax_active)).map
      SystemOwnership.id).Nodup :=
    List.Nodup.sublist (List.Sublist.map _ (List.filter_sublist _)) hids
  have hcov1 : ∀ s ∈ systems.filter (fun s => s.tax_active),
      SystemCovered (generate_monthly_tax_cycles systems cycles0 obls0
        assignments today nid0).cycles s today := by
    unfold generate_monthly_tax_cycles
    exact run_covers_all assignments today _ _ hvalid hnd
  have h2 := run_on_covered_creates_nothing assignments today
    (systems.filter (fun s => s.tax_active))
    { cycles := (generate_monthly_tax_cycles systems cycles0 obls0
        assignments today nid0).cycles
      obligations := obls1
      created := 0
      skipped := 0
      errors := 0
      obligations_created := 0
      next_cycle_id := nid1 } hcov1
  unfold generate_monthly_tax_cycles
  exact h2.1



/-- C6 witness: the idempotence theorem applied to one rated system and
an empty initial database. -/
theorem generation_idempotent_witness :
    (∀ c ∈ ([] : List TaxCycle), c.period_start.Valid) ∧
    (([ratedSystem].map SystemOwnership.id).Nodup) ∧
    (generate_monthly_tax_cycles [ratedSystem]
      (generate_monthly_tax_cycles [ratedSystem] [] [] [] sampleToday
        1).cycles
      [] [] sampleToday 100).created = 0 :=
  ⟨by simp, by decide,
    generation_idempotent [ratedSystem] [] [] [] [] sampleToday 1 100
      (by simp) (by decide)⟩

end IskSync
